import Mathlib

/-!
# Cut-or-die course API: request handlers over a document store

A shallow embedding of the request handlers of `controllers/courseController.js`
and `controllers/authController.js`.  The document store is a pair of
collections (lists of documents, in collection order); a handler is a function
from the store and the request to the new store and the way the handler ended:
it answered with `res.status(..).json(..)`, it called `next`, or its promise
rejected with a runtime error.
-/

set_option autoImplicit false

namespace CutOrDie

/-! ## Data model -/

/-- Identifier of a stored document (`_id`), of a gateway invoice, of a file. -/
abbrev Id := String

/-- The operational error built by `new AppError(message, statusCode)`; the
status code is absent where the source passes the message alone. -/
structure AppError where
  message : String
  statusCode : Option Nat
deriving DecidableEq, Repr

/-- Errors that make the promise of an async handler reject. -/
inductive JsError where
  /-- Property read on `null` or `undefined`. -/
  | typeError (reading : String)
  /-- Use of an identifier that is bound nowhere in scope. -/
  | referenceError (name : String)
  /-- An awaited collaborator call rejected. -/
  | rejected (what : String)
deriving DecidableEq, Repr

/-- How a handler ends. -/
inductive Outcome (β : Type) where
  /-- The handler called `next()` (no error) or `next(new AppError(..))`. -/
  | next (err : Option AppError)
  /-- The handler answered `res.status(status).json(body)`. -/
  | json (status : Nat) (body : β)
  /-- The handler's promise rejected. -/
  | threw (e : JsError)
deriving DecidableEq, Repr

/-- A course document, with the fields the handlers read. -/
structure Course where
  _id : Id
  priceUah : Nat
  enName : String
  fileId : Id
deriving DecidableEq, Repr

/-- One element of `user.invoices`; `invoiceId` is `none` when the pushed
object carried `undefined` there. -/
structure Invoice where
  invoiceId : Option Id
  courseId : Id
deriving DecidableEq, Repr

/-- A user document as stored: `purchasedCourses` holds course ids. -/
structure User where
  _id : Id
  email : String
  password : String
  passwordChangedAt : Option Nat
  passwordResetToken : Option String
  passwordResetExpires : Option Nat
  purchasedCourses : List Id
  invoices : List Invoice
deriving DecidableEq, Repr

/-- The document store: the two collections, in collection order. -/
structure Db where
  users : List User
  courses : List Course
deriving DecidableEq, Repr

/-! ## Store operations used by the handlers -/

/-- `Course.findById(id)`. -/
def Course.findById (db : Db) (id : Id) : Option Course :=
  db.courses.find? (fun c => c._id == id)

/-- `User.findById(id)`. -/
def User.findById (db : Db) (id : Id) : Option User :=
  db.users.find? (fun u => u._id == id)

/-- `User.findOne({ email })`: the first user with that email. -/
def User.findOneByEmail (db : Db) (email : String) : Option User :=
  db.users.find? (fun u => u.email == email)

/-- `User.findOne({ 'invoices.invoiceId': invoiceId })`: the first user one of
whose invoice records carries that invoice id. -/
def User.findOneByInvoiceId (db : Db) (invoiceId : Id) : Option User :=
  db.users.find? (fun u => u.invoices.any (fun i => i.invoiceId == some invoiceId))

/-- The store after the write `update` to the user document with the given
`_id` (an `_id` is unique in a collection). -/
def Db.updateUser (db : Db) (id : Id) (update : User → User) : Db :=
  { db with users := db.users.map (fun v => if v._id == id then update v else v) }

/-- `user.save(..)` for the document with the given `_id`: the paths modified
on the document in hand are written to the stored document, `update` being
that write; the other paths of the stored document are left alone.  The result
is `none`, the promise rejects, when the collection holds no document with
that `_id`. -/
def User.save (db : Db) (id : Id) (update : User → User) : Option Db :=
  if db.users.any (fun v => v._id == id) then some (db.updateUser id update) else none

/-! ## `validatePayment` (courseController.js, lines 148-189) -/

/-- The body of the gateway's callback request. -/
structure PaymentBody where
  status : String
  invoiceId : Id
deriving DecidableEq, Repr

/-- The `data` object of the success answer of `validatePayment`. -/
structure PaymentData where
  invoiceId : Id
  courseId : Id
  userId : Id
deriving DecidableEq, Repr

/-- Handler `validatePayment`. -/
def validatePayment (db : Db) (body : PaymentBody) : Db × Outcome PaymentData :=
  if body.status != "success" then
    (db, .next (some ⟨"Invoice is not paid yet", some 202⟩))
  else
    let invoiceId := body.invoiceId
    match User.findOneByInvoiceId db invoiceId with
    | none =>
      -- `user.invoices[0]` on `null`, before the `if (!user)` test is reached
      (db, .threw (.typeError "invoices"))
    | some user =>
      match user.invoices.head? with
      | none =>
        -- `invoice.courseId` on `undefined`
        (db, .threw (.typeError "courseId"))
      | some invoice =>
        let courseId := invoice.courseId
        let userId := user._id
        -- `if (!user)` is false on this branch
        match Course.findById db courseId with
        | none => (db, .next (some ⟨"No course found with this invoiceId", some 404⟩))
        | some course =>
          -- `user.purchasedCourses.push(course._id)`, the one modified path
          match User.save db user._id
              (fun stored =>
                { stored with purchasedCourses := stored.purchasedCourses ++ [course._id] }) with
          | none => (db, .threw (.rejected "user.save"))
          | some db => (db, .json 200 ⟨invoiceId, courseId, userId⟩)

/-! ## `protect` (authController.js, lines 110-132) -/

/-- The claims a verified session token decodes to. -/
structure Claims where
  id : Id
  iat : Nat
deriving DecidableEq, Repr

/-- The user document that `protect` stores in `req.user`: the document as
loaded, and what `user.purchasedCourses` reads after
`.populate('purchasedCourses')`, the course documents themselves. -/
structure ReqUser where
  doc : User
  purchasedCourses : List Course
deriving DecidableEq, Repr

/-- `.populate('purchasedCourses')`: each stored id is replaced by the course
document it refers to; ids that refer to no course are left out. -/
def populate (db : Db) (ids : List Id) : List Course :=
  ids.filterMap (Course.findById db)

/-- Modelled from the spec: `changedPasswordAfter` of the user model
(models/userModel.js is not among the sources): a token is invalidated "if the
user's password-changed timestamp is after the token's issued-at". -/
def User.changedPasswordAfter (u : User) (iat : Nat) : Bool :=
  match u.passwordChangedAt with
  | some changedAt => decide (iat < changedAt)
  | none => false

/-- JavaScript `!x` for an optional string: `undefined` and `''` are falsy. -/
def falsy (x : Option String) : Bool :=
  match x with
  | none => true
  | some s => s == ""

/-- Middleware `protect`; `token` is `req.body.jwt`, `jwtVerify` is
`jwt.verify` under the server secret (`none` when it rejects).  The first
component of the result is `req.user` after the middleware. -/
def protect (jwtVerify : String → Option Claims) (db : Db) (token : Option String) :
    Option ReqUser × Outcome Unit :=
  match token with
  | none =>
    (none, .next (some ⟨"You are not logged in! Please log in to get access.", some 401⟩))
  | some tok =>
    if falsy (some tok) then
      (none, .next (some ⟨"You are not logged in! Please log in to get access.", some 401⟩))
    else
      match jwtVerify tok with
      | none => (none, .threw (.rejected "jwt.verify"))
      | some decoded =>
        match User.findById db decoded.id with
        | none =>
          (none, .next (some ⟨"The user belonging to this token does no longer exist.",
            some 401⟩))
        | some currentUser =>
          if currentUser.changedPasswordAfter decoded.iat then
            (none, .next (some ⟨"User recently changed password. Please login again.",
              some 401⟩))
          else
            (some ⟨currentUser, populate db currentUser.purchasedCourses⟩, .next none)

/-! ## `createInvoice` (courseController.js, lines 79-146) -/

/-- The part of the request sent to the payment gateway that depends on the
course. -/
structure InvoiceRequest where
  amount : Nat
  ccy : Nat
  destination : String
  validity : Nat
deriving DecidableEq, Repr

/-- What the handler reads of a JSON body other than `null`: the fields
`invoiceId` and `pageUrl`, each `none` when the body has no such field (a body
that is not an object has neither). -/
structure GatewayBody where
  invoiceId : Option Id
  pageUrl : Option String
deriving DecidableEq, Repr

/-- What `fetch(url, ..)` and then `response.json()` give. -/
inductive FetchResult where
  /-- The promise of `fetch` rejects. -/
  | networkError
  /-- The promise of `fetch` resolves, `response.json()` rejects. -/
  | noJson
  /-- The gateway answered with the JSON body `null`. -/
  | jsonNull
  /-- The gateway answered with a JSON body other than `null`. -/
  | body (b : GatewayBody)
deriving DecidableEq, Repr

/-- The string a course document converts to when it is compared with a
string by `==` (the document's rendering of all its fields). -/
def Course.inspect (c : Course) : String :=
  "\x7b _id: " ++ c._id ++ ", price: \x7b uah: " ++ toString c.priceUah
    ++ " \x7d, en: \x7b name: " ++ c.enName ++ " \x7d, fileId: " ++ c.fileId ++ " \x7d"

/-- `user.purchasedCourses.includes(id)` on the populated array, `id` being
the string `req.params.id`: each element, a course document, is compared with
the string by `==`. -/
def includes (purchasedCourses : List Course) (id : Id) : Bool :=
  purchasedCourses.any (fun d => id == d.inspect)

/-- Handler `createInvoice`; `user` is `req.user`, `id` is `req.params.id`.
The second component of the result lists the requests sent to the gateway. -/
def createInvoice (fetch : InvoiceRequest → FetchResult) (db : Db) (user : ReqUser)
    (id : Id) : Db × List InvoiceRequest × Outcome (Option String) :=
  match Course.findById db id with
  | none => (db, [], .next (some ⟨"No course found with this ID", some 404⟩))
  | some course =>
    if includes user.purchasedCourses id then
      (db, [], .next (some ⟨"Course already acquired", some 400⟩))
    else
      let data : InvoiceRequest := ⟨course.priceUah, 980, course.enName, 3600⟩
      match fetch data with
      | .networkError =>
        -- the rejection is caught and logged; `response.json()` on `undefined`
        (db, [data], .threw (.typeError "json"))
      | .noJson => (db, [data], .threw (.rejected "response.json"))
      | .jsonNull =>
        -- `result.invoiceId` on `null`
        (db, [data], .threw (.typeError "invoiceId"))
      | .body result =>
        let invoiceId := result.invoiceId
        let courseId := course._id
        -- `user.invoices.push(..)`, the one modified path
        match User.save db user.doc._id
            (fun stored => { stored with invoices := stored.invoices ++ [⟨invoiceId, courseId⟩] })
            with
        | none => (db, [data], .threw (.rejected "user.save"))
        | some db => (db, [data], .json 200 result.pageUrl)

/-! ## `giveAccess` (courseController.js, lines 191-227) -/

/-- The arguments of `drive.permissions.create`. -/
structure DriveGrant where
  fileId : Id
  role : String
  type : String
  emailAddress : String
deriving DecidableEq, Repr

/-- Handler `giveAccess`; `drive` is `drive.permissions.create` (`none` when it
rejects, else the id of the permission).  The first component of the result
lists the grants asked of the file-sharing service. -/
def giveAccess (drive : DriveGrant → Option Id) (db : Db) (user : ReqUser) (id : Id) :
    List DriveGrant × Outcome Id :=
  match Course.findById db id with
  | none =>
    -- `next` is not among the handler's parameters `(req, res)`
    ([], .threw (.referenceError "next"))
  | some _course =>
    -- `const fileId = course.fileId` is computed and not used
    let grant : DriveGrant :=
      ⟨"1TTcG6LUynoBgZzLYDPbQM4e5cfo6sNek", "reader", "user", user.doc.email⟩
    match drive grant with
    | none => ([grant], .threw (.rejected "drive.permissions.create"))
    | some permissionId => ([grant], .json 200 permissionId)

/-! ## Password reset (authController.js, lines 144-254) -/

/-- The collaborators of the password-reset handlers. -/
structure Env where
  /-- `bcrypt.hash(s, 12)`. -/
  hash : String → String
  /-- `bcrypt.compare(candidate, stored)`. -/
  compare : String → String → Bool
  /-- `signToken(id)`. -/
  signToken : Id → String
  /-- The schema validators run by `user.save()`. -/
  validate : User → Bool
  /-- What the save middleware of the user model leaves in `passwordChangedAt`
  when a changed password is saved at the given time, from the value held. -/
  stamp : Nat → Option Nat → Option Nat
  /-- The code drawn by `createPasswordResetToken`. -/
  resetCode : String
  /-- The lifetime of a reset code. -/
  resetTtl : Nat
  /-- `transporter.sendMail(mailOptions)`: `false` when it rejects. -/
  sendMail : String → String → String → String → Bool

/-- `sendEmail(options)` of utils/email.js: `false` when the promise rejects. -/
def sendEmail (env : Env) (email subject message : String) : Bool :=
  env.sendMail "cutordieofficial@gmail.com" email subject message

/-- Modelled from the spec: `createPasswordResetToken` of the user model
(models/userModel.js is not among the sources): it "generates a high-entropy
one-time code" and sets "an expiry timestamp (fixed TTL from issuance time)";
the code is returned to the caller. -/
def User.createPasswordResetToken (env : Env) (now : Nat) (u : User) : String × User :=
  (env.resetCode, { u with passwordResetExpires := some (now + env.resetTtl) })

/-- JavaScript `user.passwordResetExpires < Date.now()`: a comparison with
`undefined` is false. -/
def resetExpired (u : User) (now : Nat) : Bool :=
  match u.passwordResetExpires with
  | some expires => decide (expires < now)
  | none => false

/-- The body of the requests of the password-reset routes. -/
structure ResetBody where
  email : String
  passwordResetToken : Option String
  password : String
deriving DecidableEq, Repr

/-- Handler `forgotPassword`; the second component of the result tells
whether the success answer or the error was produced. -/
def forgotPassword (env : Env) (db : Db) (now : Nat) (email : String) :
    Db × Outcome String :=
  match User.findOneByEmail db email with
  | none => (db, .next (some ⟨"There is no user with this email address", none⟩))
  | some user =>
    let (resetToken, user) := user.createPasswordResetToken env now
    let user := { user with passwordResetToken := some (env.hash resetToken) }
    match User.save db user._id
        (fun stored =>
          { stored with
            passwordResetToken := user.passwordResetToken
            passwordResetExpires := user.passwordResetExpires }) with
    | none => (db, .threw (.rejected "user.save"))
    | some db =>
      let message := "Forgot your password? Enter this code on the site. " ++ resetToken
      if sendEmail env user.email "Forgot your password?" message then
        (db, .json 200 "Token sent to email")
      else
        match User.save db user._id
            (fun stored =>
              { stored with passwordResetToken := none, passwordResetExpires := none }) with
        | none => (db, .threw (.rejected "user.save"))
        | some db => (db, .next (some ⟨"There was an error sending the email", some 500⟩))

/-- The checks shared, line for line, by `resetPassword` and `checkToken`
after the user was found: `none` when all of them pass. -/
def resetChecks (env : Env) (user : User) (now : Nat) (inputToken : Option String) :
    Option AppError :=
  if resetExpired user now then
    some ⟨"Code has expired. Please send email again", some 400⟩
  else
    match user.passwordResetToken with
    | none => some ⟨"Please execute forgot password procedure first", some 400⟩
    | some originalToken =>
      if falsy (some originalToken) then
        some ⟨"Please execute forgot password procedure first", some 400⟩
      else
        match inputToken with
        | none => some ⟨"Token cant be empty", some 400⟩
        | some input =>
          if falsy (some input) then some ⟨"Token cant be empty", some 400⟩
          else if !(env.compare input originalToken) then
            some ⟨"Invalid code. Please try again.", some 400⟩
          else none

/-- Modelled from the spec: the save path of the user model for a changed
password (models/userModel.js is not among the sources): the password "goes
through the same one-way hashing as signup".  `user.save()` runs the schema's
validators on the document in hand first, the parameter `env.validate`, and
the result is `none` when they reject it; then the modified paths, the
password and the two reset fields, are written, together with what the save
middleware leaves in `passwordChangedAt`, the parameter `env.stamp`. -/
def User.saveValidated (env : Env) (db : Db) (now : Nat) (user : User) : Option Db :=
  if env.validate user then
    User.save db user._id
      (fun stored =>
        { stored with
          password := env.hash user.password
          passwordChangedAt := env.stamp now stored.passwordChangedAt
          passwordResetToken := user.passwordResetToken
          passwordResetExpires := user.passwordResetExpires })
  else none

/-- Handler `resetPassword`. -/
def resetPassword (env : Env) (db : Db) (now : Nat) (body : ResetBody) :
    Db × Outcome String :=
  match User.findOneByEmail db body.email with
  | none => (db, .next (some ⟨"There is no user with this email", some 404⟩))
  | some user =>
    match resetChecks env user now body.passwordResetToken with
    | some err => (db, .next (some err))
    | none =>
      let user := { user with
        password := body.password, passwordResetToken := none, passwordResetExpires := none }
      match User.saveValidated env db now user with
      | none => (db, .threw (.rejected "user.save"))
      | some db => (db, .json 200 (env.signToken user._id))

/-- Handler `checkToken`. -/
def checkToken (env : Env) (db : Db) (now : Nat) (body : ResetBody) : Outcome String :=
  match User.findOneByEmail db body.email with
  | none => .next (some ⟨"There is no user with this email", some 404⟩)
  | some user =>
    match resetChecks env user now body.passwordResetToken with
    | some err => .next (some err)
    | none => .json 200 (body.passwordResetToken.getD "")

/-! ## Example stores -/

/-- A user holding two invoices, for two different courses. -/
def twoInvoiceUser : User :=
  { _id := "u1", email := "a@x.com", password := "h0", passwordChangedAt := none,
    passwordResetToken := none, passwordResetExpires := none, purchasedCourses := [],
    invoices := [⟨some "inv1", "cA"⟩, ⟨some "inv2", "cB"⟩] }

/-- Two courses backed by two different files. -/
def twoCourses : List Course :=
  [⟨"cA", 100, "A", "fileA"⟩, ⟨"cB", 200, "B", "fileB"⟩]

/-- A store with one user and two courses. -/
def twoInvoiceDb : Db := { users := [twoInvoiceUser], courses := twoCourses }

/-- A user who purchased course `cA`. -/
def ownerUser : User :=
  { _id := "u2", email := "b@x.com", password := "h0", passwordChangedAt := none,
    passwordResetToken := none, passwordResetExpires := none, purchasedCourses := ["cA"],
    invoices := [] }

/-- A store in which `u2` owns course `cA`. -/
def ownerDb : Db := { users := [ownerUser], courses := twoCourses }

/-- A token codec that knows the one token `tok`, issued at time 10 to the
user `id`. -/
def oneToken (id : Id) : String → Option Claims :=
  fun t => if t == "tok" then some ⟨id, 10⟩ else none

/-- A gateway that answers every request with the given result. -/
def constGateway (r : FetchResult) : InvoiceRequest → FetchResult := fun _ => r

/-- A user with a pending reset whose code hashes to `H:123456`, expiring at
time 1000. -/
def pendingUser : User :=
  { _id := "u3", email := "c@x.com", password := "h0", passwordChangedAt := none,
    passwordResetToken := some "H:123456", passwordResetExpires := some 1000,
    purchasedCourses := [], invoices := [] }

/-- A store holding the user with the pending reset. -/
def pendingDb : Db := { users := [pendingUser], courses := [] }

/-- Toy collaborators: hashing prefixes `H:`, a document is valid when its
password has eight characters or more, a saved password change is stamped with
the time of the save, and mail delivery succeeds or fails as `mailOk` says. -/
def toyEnv (mailOk : Bool) : Env :=
  { hash := fun s => "H:" ++ s
    compare := fun candidate stored => "H:" ++ candidate == stored
    signToken := fun id => "jwt-" ++ id
    validate := fun u => decide (8 ≤ u.password.length)
    stamp := fun now _ => some now
    resetCode := "654321"
    resetTtl := 600
    sendMail := fun _ _ _ _ => mailOk }

/-- A user whose password was changed at time 20. -/
def rotatedUser : User :=
  { _id := "u4", email := "d@x.com", password := "h1", passwordChangedAt := some 20,
    passwordResetToken := none, passwordResetExpires := none, purchasedCourses := ["cB"],
    invoices := [] }

/-- A store holding the user whose password was changed. -/
def rotatedDb : Db := { users := [rotatedUser], courses := twoCourses }

/-- A file-sharing service that grants every request. -/
def grantAll : DriveGrant → Option Id := fun _ => some "perm1"

/-! ## The store after `save` -/

/-- A document found by a query is in the collection under its `_id`. -/
theorem any_id_of_find? (p : User → Bool) :
    ∀ (l : List User) (u : User), l.find? p = some u →
      l.any (fun v => v._id == u._id) = true := by
  intro l u h
  have hm : u ∈ l := List.mem_of_find?_eq_some h
  rw [List.any_eq_true]
  exact ⟨u, hm, by simp⟩

/-- `save` of a document that a query found in the store goes through. -/
theorem save_of_find? (p : User → Bool) (db : Db) (u : User) (update : User → User)
    (h : db.users.find? p = some u) :
    User.save db u._id update = some (db.updateUser u._id update) := by
  simp only [User.save, any_id_of_find? p db.users u h, if_true]

/-- After a write that does not change what a query tests, the query that
found the document `u` finds `u` with the write applied. -/
theorem find?_updateUser (p : User → Bool) (update : User → User) (id : Id)
    (hp : ∀ v, p (update v) = p v) :
    ∀ (l : List User) (u : User), l.find? p = some u → u._id = id →
      (l.map (fun v => if v._id == id then update v else v)).find? p = some (update u) := by
  intro l
  induction l with
  | nil => intro u h; simp at h
  | cons v l ih =>
    intro u h hid
    rw [List.map_cons, List.find?_cons]
    rw [List.find?_cons] at h
    cases hpv : p v with
    | true =>
      rw [hpv] at h
      have huv : v = u := by simpa using h
      subst huv
      have hv : (v._id == id) = true := by simpa using hid
      rw [if_pos hv, hp, hpv]
    | false =>
      rw [hpv] at h
      have hq : p (if (v._id == id) = true then update v else v) = false := by
        by_cases hv : (v._id == id) = true
        · rw [if_pos hv, hp, hpv]
        · rw [if_neg hv, hpv]
      rw [hq]
      exact ih u h hid

/-- What a success answer of `validatePayment` tells about the store it ran on. -/
theorem validatePayment_json_inv (db db1 : Db) (invoiceId : Id) (status : Nat)
    (data : PaymentData)
    (h : validatePayment db ⟨"success", invoiceId⟩ = (db1, .json status data)) :
    ∃ user invoice course, User.findOneByInvoiceId db invoiceId = some user ∧
      user.invoices.head? = some invoice ∧
      Course.findById db invoice.courseId = some course ∧
      db1 = db.updateUser user._id
        (fun stored =>
          { stored with purchasedCourses := stored.purchasedCourses ++ [course._id] }) ∧
      status = 200 ∧ data = ⟨invoiceId, invoice.courseId, user._id⟩ := by
  have hs : (("success" : String) != "success") = false := by decide
  simp only [validatePayment, hs] at h
  cases hu : User.findOneByInvoiceId db invoiceId with
  | none => simp [hu] at h
  | some user =>
    cases hi : user.invoices.head? with
    | none => simp [hu, hi] at h
    | some invoice =>
      cases hc : Course.findById db invoice.courseId with
      | none => simp [hu, hi, hc] at h
      | some course =>
        have hsave := save_of_find? _ db user
          (fun stored =>
            { stored with purchasedCourses := stored.purchasedCourses ++ [course._id] }) hu
        simp [hu, hi, hc, hsave] at h
        refine ⟨user, invoice, course, rfl, hi, hc, ?_, ?_, ?_⟩
        · exact h.1.symm
        · exact h.2.1.symm
        · exact h.2.2.symm

/-- The success path of `validatePayment`. -/
theorem validatePayment_json (db : Db) (invoiceId : Id) (user : User) (invoice : Invoice)
    (course : Course) (hu : User.findOneByInvoiceId db invoiceId = some user)
    (hi : user.invoices.head? = some invoice)
    (hc : Course.findById db invoice.courseId = some course) :
    validatePayment db ⟨"success", invoiceId⟩ =
      (db.updateUser user._id
          (fun stored =>
            { stored with purchasedCourses := stored.purchasedCourses ++ [course._id] }),
        .json 200 ⟨invoiceId, invoice.courseId, user._id⟩) := by
  have hs : (("success" : String) != "success") = false := by decide
  have hsave := save_of_find? _ db user
    (fun stored =>
      { stored with purchasedCourses := stored.purchasedCourses ++ [course._id] }) hu
  simp [validatePayment, hs, hu, hi, hc, hsave]

/-- A course found by id carries that id. -/
theorem findById_id (db : Db) (id : Id) (c : Course) (h : Course.findById db id = some c) :
    c._id = id := by
  have := List.find?_some h
  simpa using this

/-! ## Payment callback: claims C1, C2, C3 -/

/-- C1, evaluated on the code: the user holds the invoices `inv1` for course
`cA` and `inv2` for course `cB`, in that order; the success callback for `inv2`
reads `user.invoices[0]` and so stores `cA`, the course of the other invoice,
in `purchasedCourses`, and `cB` is not added. -/
theorem validatePayment_takes_first_invoice :
    ⟨some "inv2", "cB"⟩ ∈ twoInvoiceUser.invoices ∧
    validatePayment twoInvoiceDb ⟨"success", "inv2"⟩ =
      ({ twoInvoiceDb with users := [{ twoInvoiceUser with purchasedCourses := ["cA"] }] },
        .json 200 ⟨"inv2", "cA", "u1"⟩) ∧
    "cB" ∉ ["cA"] := by
  decide

/-- C2 as stated fails: after the success callback for `inv1` is applied
twice, the purchased list of the user holds the course twice and differs from
its value after the first application. -/
theorem validatePayment_replay_duplicates :
    (validatePayment twoInvoiceDb ⟨"success", "inv1"⟩).1.users.map
        (fun u => u.purchasedCourses) = [["cA"]] ∧
    (validatePayment (validatePayment twoInvoiceDb ⟨"success", "inv1"⟩).1
        ⟨"success", "inv1"⟩).1.users.map (fun u => u.purchasedCourses) = [["cA", "cA"]] ∧
    (validatePayment (validatePayment twoInvoiceDb ⟨"success", "inv1"⟩).1
        ⟨"success", "inv1"⟩).1.users.map (fun u => u.purchasedCourses) ≠
      (validatePayment twoInvoiceDb ⟨"success", "inv1"⟩).1.users.map
        (fun u => u.purchasedCourses) := by
  decide

/-- C2 amended: if a success callback for `invoiceId` succeeds once, leaving
the store `db1`, then the user found by that invoice id in `db1` already holds
the granted course id, and a second callback succeeds with the same answer and
stores that user with the same course id appended once more: the ids held are
the same, the list has one more entry. -/
theorem validatePayment_replay_appends (db db1 : Db) (invoiceId : Id) (data : PaymentData)
    (h : validatePayment db ⟨"success", invoiceId⟩ = (db1, .json 200 data)) :
    ∃ u1 : User, User.findOneByInvoiceId db1 invoiceId = some u1 ∧
      data.courseId ∈ u1.purchasedCourses ∧
      validatePayment db1 ⟨"success", invoiceId⟩ =
        (db1.updateUser u1._id
            (fun stored =>
              { stored with purchasedCourses := stored.purchasedCourses ++ [data.courseId] }),
          .json 200 data) ∧
      User.findOneByInvoiceId (validatePayment db1 ⟨"success", invoiceId⟩).1 invoiceId =
        some { u1 with purchasedCourses := u1.purchasedCourses ++ [data.courseId] } ∧
      (∀ c, c ∈ u1.purchasedCourses ++ [data.courseId] ↔ c ∈ u1.purchasedCourses) := by
  obtain ⟨user, invoice, course, hu, hi, hc, hdb, -, hdata⟩ :=
    validatePayment_json_inv db db1 invoiceId 200 data h
  have hid : course._id = invoice.courseId := findById_id db _ _ hc
  have hcid : data.courseId = invoice.courseId := by rw [hdata]
  let u1 : User := { user with purchasedCourses := user.purchasedCourses ++ [course._id] }
  have hu1 : User.findOneByInvoiceId db1 invoiceId = some u1 := by
    rw [hdb]
    exact find?_updateUser
      (fun u : User => u.invoices.any (fun i => i.invoiceId == some invoiceId))
      (fun stored =>
        { stored with purchasedCourses := stored.purchasedCourses ++ [course._id] })
      user._id (fun _ => rfl) db.users user hu rfl
  have hc1 : Course.findById db1 invoice.courseId = some course := by
    rw [hdb]; exact hc
  have hmem : data.courseId ∈ u1.purchasedCourses := by
    rw [hcid, ← hid]; simp [u1]
  have hrun := validatePayment_json db1 invoiceId u1 invoice course hu1 hi hc1
  refine ⟨u1, hu1, hmem, ?_, ?_, ?_⟩
  · rw [hrun, hdata, hid]
  · rw [hrun, hcid, ← hid]
    exact find?_updateUser
      (fun u : User => u.invoices.any (fun i => i.invoiceId == some invoiceId))
      (fun stored =>
        { stored with purchasedCourses := stored.purchasedCourses ++ [course._id] })
      u1._id (fun _ => rfl) db1.users u1 hu1 rfl
  · intro c
    constructor
    · intro hc2
      rcases List.mem_append.mp hc2 with h1 | h1
      · exact h1
      · have : c = data.courseId := by simpa using h1
        rw [this]; exact hmem
    · intro h1
      exact List.mem_append.mpr (Or.inl h1)

/-- Witness of `validatePayment_replay_appends`: the callback for `inv1` on the
example store. -/
theorem validatePayment_replay_appends_witness :
    ∃ u1 : User,
      User.findOneByInvoiceId
          ({ twoInvoiceDb with users := [{ twoInvoiceUser with purchasedCourses := ["cA"] }] })
          "inv1" = some u1 ∧
      "cA" ∈ u1.purchasedCourses ∧
      validatePayment
          ({ twoInvoiceDb with users := [{ twoInvoiceUser with purchasedCourses := ["cA"] }] })
          ⟨"success", "inv1"⟩ =
        (Db.updateUser
          ({ twoInvoiceDb with users := [{ twoInvoiceUser with purchasedCourses := ["cA"] }] })
          u1._id
          (fun stored => { stored with purchasedCourses := stored.purchasedCourses ++ ["cA"] }),
          .json 200 ⟨"inv1", "cA", "u1"⟩) ∧
      User.findOneByInvoiceId
          (validatePayment
            ({ twoInvoiceDb with
                users := [{ twoInvoiceUser with purchasedCourses := ["cA"] }] })
            ⟨"success", "inv1"⟩).1
          "inv1" =
        some { u1 with purchasedCourses := u1.purchasedCourses ++ ["cA"] } ∧
      (∀ c, c ∈ u1.purchasedCourses ++ ["cA"] ↔ c ∈ u1.purchasedCourses) :=
  validatePayment_replay_appends twoInvoiceDb
    ({ twoInvoiceDb with users := [{ twoInvoiceUser with purchasedCourses := ["cA"] }] })
    "inv1" ⟨"inv1", "cA", "u1"⟩ (by decide)

/-- C3, evaluated on the code: when no user holds the invoice id, the success
callback ends in the TypeError of `user.invoices` on `null`, with the store
untouched; the 404 answer `No user found with this invoiceId` is not given. -/
theorem validatePayment_unknown_invoice_throws (db : Db) (invoiceId : Id)
    (h : User.findOneByInvoiceId db invoiceId = none) :
    validatePayment db ⟨"success", invoiceId⟩ = (db, .threw (.typeError "invoices")) ∧
    (validatePayment db ⟨"success", invoiceId⟩).2 ≠
      .next (some ⟨"No user found with this invoiceId", some 404⟩) := by
  have hs : (("success" : String) != "success") = false := by decide
  have h1 : validatePayment db ⟨"success", invoiceId⟩ =
      (db, .threw (.typeError "invoices")) := by
    simp [validatePayment, hs, h]
  refine ⟨h1, ?_⟩
  rw [h1]
  intro hne
  cases hne

/-- Witness of `validatePayment_unknown_invoice_throws`: the invoice id `inv404`
is held by no user of the example store. -/
theorem validatePayment_unknown_invoice_throws_witness :
    User.findOneByInvoiceId twoInvoiceDb "inv404" = none ∧
    validatePayment twoInvoiceDb ⟨"success", "inv404"⟩ =
      (twoInvoiceDb, .threw (.typeError "invoices")) ∧
    (validatePayment twoInvoiceDb ⟨"success", "inv404"⟩).2 ≠
      .next (some ⟨"No user found with this invoiceId", some 404⟩) :=
  ⟨by decide, validatePayment_unknown_invoice_throws twoInvoiceDb "inv404" (by decide)⟩

/-! ## Invoice creation: claims C4, C5 -/

/-- The user that `protect` resolves is a document of the store. -/
theorem protect_resolved (jwtVerify : String → Option Claims) (db : Db)
    (token : Option String) (user : ReqUser) (out : Outcome Unit)
    (h : protect jwtVerify db token = (some user, out)) :
    User.findById db user.doc._id = some user.doc := by
  unfold protect at h
  cases token with
  | none => simp at h
  | some tok =>
    cases hf : falsy (some tok) with
    | true => simp [hf] at h
    | false =>
      cases hv : jwtVerify tok with
      | none => simp [hf, hv] at h
      | some decoded =>
        cases hu : User.findById db decoded.id with
        | none => simp [hf, hv, hu] at h
        | some currentUser =>
          cases hc : currentUser.changedPasswordAfter decoded.iat with
          | true => simp [hf, hv, hu, hc] at h
          | false =>
            simp [hf, hv, hu, hc] at h
            have hid : currentUser._id = decoded.id := by
              have := List.find?_some hu
              simpa using this
            rw [← h.1]
            show User.findById db currentUser._id = some currentUser
            rw [hid]
            exact hu

/-- C4 as stated fails: the user is resolved by `protect`, the gateway answers
with a JSON object that has no `invoiceId` field; `createInvoice` answers 200
and the stored invoice list of the user has one more record, with `invoiceId`
undefined. -/
theorem createInvoice_appends_without_invoiceId :
    protect (oneToken "u1") twoInvoiceDb (some "tok") =
      (some ⟨twoInvoiceUser, []⟩, .next none) ∧
    includes [] "cB" = false ∧
    createInvoice (constGateway (.body ⟨none, none⟩)) twoInvoiceDb ⟨twoInvoiceUser, []⟩ "cB" =
      ({ twoInvoiceDb with users := [{ twoInvoiceUser with
          invoices := [⟨some "inv1", "cA"⟩, ⟨some "inv2", "cB"⟩, ⟨none, "cB"⟩] }] },
        [⟨200, 980, "B", 3600⟩], .json 200 none) ∧
    (createInvoice (constGateway (.body ⟨none, none⟩)) twoInvoiceDb ⟨twoInvoiceUser, []⟩
        "cB").1.users.map (fun u => u.invoices) ≠
      twoInvoiceDb.users.map (fun u => u.invoices) := by
  decide

/-- C4 amended: for a user resolved by `protect` and an existing course that
the purchase test does not find among the user's courses, when the gateway
call rejects, its answer has no JSON body, or the body is `null`, the store is
left as it was, no invoice record is appended; when the gateway answers with a
JSON body other than `null` that has no `invoiceId`, the record with undefined
`invoiceId` and the course's id is appended to the stored invoice list of the
user and 200 is answered. -/
theorem createInvoice_without_invoiceId (jwtVerify : String → Option Claims)
    (fetch : InvoiceRequest → FetchResult) (db : Db) (token : Option String)
    (user : ReqUser) (id : Id) (course : Course)
    (hp : protect jwtVerify db token = (some user, .next none))
    (hc : Course.findById db id = some course)
    (hn : includes user.purchasedCourses id = false) :
    ((fetch ⟨course.priceUah, 980, course.enName, 3600⟩ = .networkError ∨
        fetch ⟨course.priceUah, 980, course.enName, 3600⟩ = .noJson ∨
        fetch ⟨course.priceUah, 980, course.enName, 3600⟩ = .jsonNull) →
      (createInvoice fetch db user id).1 = db) ∧
    (∀ pageUrl, fetch ⟨course.priceUah, 980, course.enName, 3600⟩ = .body ⟨none, pageUrl⟩ →
      createInvoice fetch db user id =
        (db.updateUser user.doc._id
            (fun stored => { stored with invoices := stored.invoices ++ [⟨none, course._id⟩] }),
          [⟨course.priceUah, 980, course.enName, 3600⟩], .json 200 pageUrl) ∧
      User.findById (createInvoice fetch db user id).1 user.doc._id =
        some { user.doc with invoices := user.doc.invoices ++ [⟨none, course._id⟩] }) := by
  have hdoc : User.findById db user.doc._id = some user.doc :=
    protect_resolved jwtVerify db token user _ hp
  have hsave := save_of_find? _ db user.doc
    (fun stored => { stored with invoices := stored.invoices ++ [⟨none, course._id⟩] }) hdoc
  refine ⟨?_, ?_⟩
  · intro hf
    rcases hf with hf | hf | hf <;> simp [createInvoice, hc, hn, hf]
  · intro pageUrl hf
    have hres : createInvoice fetch db user id =
        (db.updateUser user.doc._id
            (fun stored => { stored with invoices := stored.invoices ++ [⟨none, course._id⟩] }),
          [⟨course.priceUah, 980, course.enName, 3600⟩], .json 200 pageUrl) := by
      simp [createInvoice, hc, hn, hf, hsave]
    refine ⟨hres, ?_⟩
    rw [hres]
    exact find?_updateUser (fun u : User => u._id == user.doc._id)
      (fun stored => { stored with invoices := stored.invoices ++ [⟨none, course._id⟩] })
      user.doc._id (fun _ => rfl) db.users user.doc hdoc rfl

/-- Witness of `createInvoice_without_invoiceId`: user `u1` and course `cB` of
the example store, with a gateway whose call rejects and with a gateway that
answers with an empty JSON object. -/
theorem createInvoice_without_invoiceId_witness :
    protect (oneToken "u1") twoInvoiceDb (some "tok") =
      (some ⟨twoInvoiceUser, []⟩, .next none) ∧
    Course.findById twoInvoiceDb "cB" = some ⟨"cB", 200, "B", "fileB"⟩ ∧
    includes [] "cB" = false ∧
    (createInvoice (constGateway .networkError) twoInvoiceDb ⟨twoInvoiceUser, []⟩ "cB").1 =
      twoInvoiceDb ∧
    User.findById
        (createInvoice (constGateway (.body ⟨none, none⟩)) twoInvoiceDb
          ⟨twoInvoiceUser, []⟩ "cB").1 "u1" =
      some { twoInvoiceUser with
        invoices := [⟨some "inv1", "cA"⟩, ⟨some "inv2", "cB"⟩, ⟨none, "cB"⟩] } :=
  ⟨by decide, by decide, by decide,
    (createInvoice_without_invoiceId (oneToken "u1") (constGateway .networkError)
      twoInvoiceDb (some "tok") ⟨twoInvoiceUser, []⟩ "cB" ⟨"cB", 200, "B", "fileB"⟩
      (by decide) (by decide) (by decide)).1 (Or.inl rfl),
    ((createInvoice_without_invoiceId (oneToken "u1") (constGateway (.body ⟨none, none⟩))
      twoInvoiceDb (some "tok") ⟨twoInvoiceUser, []⟩ "cB" ⟨"cB", 200, "B", "fileB"⟩
      (by decide) (by decide) (by decide)).2 none rfl).2⟩

/-- C5, evaluated on the code: user `u2` owns course `cA`; `protect` resolves
the user with `purchasedCourses` populated, and `createInvoice` for `cA` does
not answer `Course already acquired`: the string id is compared with course
documents, the gateway is called, and an invoice record is appended. -/
theorem createInvoice_owned_course_reaches_gateway :
    "cA" ∈ ownerUser.purchasedCourses ∧
    protect (oneToken "u2") ownerDb (some "tok") =
      (some ⟨ownerUser, [⟨"cA", 100, "A", "fileA"⟩]⟩, .next none) ∧
    createInvoice (constGateway (.body ⟨some "inv9", some "url"⟩)) ownerDb
        ⟨ownerUser, [⟨"cA", 100, "A", "fileA"⟩]⟩ "cA" =
      ({ ownerDb with users := [{ ownerUser with invoices := [⟨some "inv9", "cA"⟩] }] },
        [⟨100, 980, "A", 3600⟩], .json 200 (some "url")) := by
  decide

/-! ## Session check: claim C6 -/

/-- C6: for a present token that verifies to `claims` and whose user exists,
`protect` answers the 401 error and leaves `req.user` unset when
`changedPasswordAfter(iat)` holds, and otherwise sets `req.user` to the user
(courses populated) and calls `next()`; in particular a token issued before
the password-changed timestamp is rejected. -/
theorem protect_password_change (jwtVerify : String → Option Claims) (db : Db)
    (tok : String) (claims : Claims) (user : User)
    (htok : tok ≠ "") (hv : jwtVerify tok = some claims)
    (hu : User.findById db claims.id = some user) :
    protect jwtVerify db (some tok) =
      (if user.changedPasswordAfter claims.iat then
        (none, .next (some ⟨"User recently changed password. Please login again.", some 401⟩))
      else
        (some ⟨user, populate db user.purchasedCourses⟩, .next none)) ∧
    (∀ changedAt, user.passwordChangedAt = some changedAt → claims.iat < changedAt →
      protect jwtVerify db (some tok) =
        (none, .next (some ⟨"User recently changed password. Please login again.",
          some 401⟩))) := by
  have hf : falsy (some tok) = false := by simp [falsy, htok]
  have h1 : protect jwtVerify db (some tok) =
      (if user.changedPasswordAfter claims.iat then
        (none, .next (some ⟨"User recently changed password. Please login again.", some 401⟩))
      else
        (some ⟨user, populate db user.purchasedCourses⟩, .next none)) := by
    simp [protect, hf, hv, hu]
  refine ⟨h1, ?_⟩
  intro changedAt hc hlt
  have h2 : user.changedPasswordAfter claims.iat = true := by
    simp [User.changedPasswordAfter, hc, hlt]
  rw [h1, h2]
  rfl

/-- Witness of `protect_password_change`: the token was issued at time 10 and
the password of its user was changed at time 20. -/
theorem protect_password_change_witness :
    "tok" ≠ "" ∧ oneToken "u4" "tok" = some ⟨"u4", 10⟩ ∧
    User.findById rotatedDb "u4" = some rotatedUser ∧
    protect (oneToken "u4") rotatedDb (some "tok") =
      (none, .next (some ⟨"User recently changed password. Please login again.",
        some 401⟩)) :=
  ⟨by decide, by decide, by decide,
    (protect_password_change (oneToken "u4") rotatedDb "tok" ⟨"u4", 10⟩ rotatedUser
      (by decide) (by decide) (by decide)).2 20 rfl (by decide)⟩

/-! ## Password reset: claims C7, C8, C9 -/

/-- C7: when the stored `passwordResetExpires` of the user is earlier than the
current time, `checkToken` and `resetPassword` both answer the expiry error,
whatever code the request carries, and `resetPassword` leaves the store as it
was. -/
theorem expired_reset_rejected (env : Env) (db : Db) (now : Nat) (body : ResetBody)
    (user : User) (expires : Nat)
    (hu : User.findOneByEmail db body.email = some user)
    (he : user.passwordResetExpires = some expires) (hlt : expires < now) :
    checkToken env db now body =
      .next (some ⟨"Code has expired. Please send email again", some 400⟩) ∧
    resetPassword env db now body =
      (db, .next (some ⟨"Code has expired. Please send email again", some 400⟩)) := by
  have hx : resetExpired user now = true := by simp [resetExpired, he, hlt]
  have hr : resetChecks env user now body.passwordResetToken =
      some ⟨"Code has expired. Please send email again", some 400⟩ := by
    simp [resetChecks, hx]
  constructor
  · simp [checkToken, hu, hr]
  · simp [resetPassword, hu, hr]

/-- Witness of `expired_reset_rejected`: the pending reset expired at time
1000, the request comes at time 2000 with the matching code. -/
theorem expired_reset_rejected_witness :
    User.findOneByEmail pendingDb "c@x.com" = some pendingUser ∧
    (toyEnv true).compare "123456" "H:123456" = true ∧
    checkToken (toyEnv true) pendingDb 2000 ⟨"c@x.com", some "123456", "New1!"⟩ =
      .next (some ⟨"Code has expired. Please send email again", some 400⟩) ∧
    resetPassword (toyEnv true) pendingDb 2000 ⟨"c@x.com", some "123456", "New1!"⟩ =
      (pendingDb, .next (some ⟨"Code has expired. Please send email again", some 400⟩)) :=
  ⟨by decide, by decide,
    expired_reset_rejected (toyEnv true) pendingDb 2000 ⟨"c@x.com", some "123456", "New1!"⟩
      pendingUser 1000 (by decide) rfl (by decide)⟩

/-- C8 as stated fails: the user has a pending reset that is not expired and
the request carries the matching code, but the schema's validators reject the
new password; `user.save()` rejects, no token is answered, and the stored
password and reset fields are what they were. -/
theorem resetPassword_rejected_by_validators :
    User.findOneByEmail pendingDb "c@x.com" = some pendingUser ∧
    resetExpired pendingUser 900 = false ∧
    (toyEnv true).compare "123456" "H:123456" = true ∧
    resetPassword (toyEnv true) pendingDb 900 ⟨"c@x.com", some "123456", "short"⟩ =
      (pendingDb, .threw (.rejected "user.save")) ∧
    (resetPassword (toyEnv true) pendingDb 900 ⟨"c@x.com", some "123456", "short"⟩).2 ≠
      .json 200 "jwt-u3" := by
  decide

/-- C8 amended: for a user with a pending reset that is not expired, the
matching code, and a new password that the schema's validators accept,
`resetPassword` answers 200 with a fresh token and leaves the user stored with
the new password (hashed) and with `passwordResetToken` and
`passwordResetExpires` cleared; a second call with the same body on the store
so left, at any time, answers `Please execute forgot password procedure first`
and changes nothing. -/
theorem resetPassword_single_use (env : Env) (db : Db) (now now2 : Nat) (body : ResetBody)
    (user : User) (original input : String)
    (hu : User.findOneByEmail db body.email = some user)
    (hexp : resetExpired user now = false)
    (ht : user.passwordResetToken = some original) (hne : original ≠ "")
    (hi : body.passwordResetToken = some input) (hine : input ≠ "")
    (hcmp : env.compare input original = true)
    (hval : env.validate
      { user with
        password := body.password, passwordResetToken := none, passwordResetExpires := none }
      = true) :
    (resetPassword env db now body).2 = .json 200 (env.signToken user._id) ∧
    User.findOneByEmail (resetPassword env db now body).1 body.email =
      some { user with
        password := env.hash body.password
        passwordChangedAt := env.stamp now user.passwordChangedAt
        passwordResetToken := none, passwordResetExpires := none } ∧
    resetPassword env (resetPassword env db now body).1 now2 body =
      ((resetPassword env db now body).1,
        .next (some ⟨"Please execute forgot password procedure first", some 400⟩)) := by
  have hf1 : falsy (some original) = false := by simp [falsy, hne]
  have hf2 : falsy (some input) = false := by simp [falsy, hine]
  have hr : resetChecks env user now body.passwordResetToken = none := by
    simp [resetChecks, hexp, ht, hf1, hi, hf2, hcmp]
  have hsave := save_of_find? _ db user
    (fun stored =>
      { stored with
        password := env.hash body.password
        passwordChangedAt := env.stamp now stored.passwordChangedAt
        passwordResetToken := none, passwordResetExpires := none }) hu
  have hres : resetPassword env db now body =
      (db.updateUser user._id
        (fun stored =>
          { stored with
            password := env.hash body.password
            passwordChangedAt := env.stamp now stored.passwordChangedAt
            passwordResetToken := none, passwordResetExpires := none }),
        .json 200 (env.signToken user._id)) := by
    simp [resetPassword, hu, hr, User.saveValidated, hval, hsave]
  have hfind : User.findOneByEmail (resetPassword env db now body).1 body.email =
      some { user with
        password := env.hash body.password
        passwordChangedAt := env.stamp now user.passwordChangedAt
        passwordResetToken := none, passwordResetExpires := none } := by
    rw [hres]
    exact find?_updateUser (fun u : User => u.email == body.email)
      (fun stored =>
        { stored with
          password := env.hash body.password
          passwordChangedAt := env.stamp now stored.passwordChangedAt
          passwordResetToken := none, passwordResetExpires := none })
      user._id (fun _ => rfl) db.users user hu rfl
  refine ⟨by rw [hres], hfind, ?_⟩
  have hr2 : resetChecks env
      { user with
        password := env.hash body.password
        passwordChangedAt := env.stamp now user.passwordChangedAt
        passwordResetToken := none, passwordResetExpires := none }
      now2 body.passwordResetToken =
      some ⟨"Please execute forgot password procedure first", some 400⟩ := by
    simp [resetChecks, resetExpired]
  generalize (resetPassword env db now body).1 = db1 at hfind ⊢
  simp [resetPassword, hfind, hr2]

/-- Witness of `resetPassword_single_use`: the pending reset expires at time
1000, the request comes at time 900 with the matching code and a password the
validators accept, and again at time 950. -/
theorem resetPassword_single_use_witness :
    User.findOneByEmail pendingDb "c@x.com" = some pendingUser ∧
    (toyEnv true).compare "123456" "H:123456" = true ∧
    (toyEnv true).validate { pendingUser with password := "NewPass1!" } = true ∧
    (resetPassword (toyEnv true) pendingDb 900 ⟨"c@x.com", some "123456", "NewPass1!"⟩).2 =
      .json 200 "jwt-u3" ∧
    User.findOneByEmail
        (resetPassword (toyEnv true) pendingDb 900 ⟨"c@x.com", some "123456", "NewPass1!"⟩).1
        "c@x.com" =
      some { pendingUser with
        password := "H:NewPass1!", passwordChangedAt := some 900
        passwordResetToken := none, passwordResetExpires := none } ∧
    resetPassword (toyEnv true)
        (resetPassword (toyEnv true) pendingDb 900 ⟨"c@x.com", some "123456", "NewPass1!"⟩).1
        950 ⟨"c@x.com", some "123456", "NewPass1!"⟩ =
      ((resetPassword (toyEnv true) pendingDb 900 ⟨"c@x.com", some "123456", "NewPass1!"⟩).1,
        .next (some ⟨"Please execute forgot password procedure first", some 400⟩)) :=
  ⟨by decide, by decide, by decide,
    resetPassword_single_use (toyEnv true) pendingDb 900 950
      ⟨"c@x.com", some "123456", "NewPass1!"⟩ pendingUser "H:123456" "123456"
      (by decide) (by decide) rfl (by decide) rfl (by decide) (by decide) (by decide)⟩

/-- C9: for an existing user, when the dispatch of the mail fails,
`forgotPassword` answers `There was an error sending the email` with status
500, and the store it leaves holds the user with `passwordResetToken` and
`passwordResetExpires` both cleared: the user found by the email has them
cleared, and so has every stored document with the user's `_id`. -/
theorem forgotPassword_mail_failure (env : Env) (db : Db) (now : Nat) (email : String)
    (user : User)
    (hu : User.findOneByEmail db email = some user)
    (hmail : sendEmail env user.email "Forgot your password?"
      ("Forgot your password? Enter this code on the site. " ++ env.resetCode) = false) :
    (forgotPassword env db now email).2 =
      .next (some ⟨"There was an error sending the email", some 500⟩) ∧
    User.findOneByEmail (forgotPassword env db now email).1 email =
      some { user with passwordResetToken := none, passwordResetExpires := none } ∧
    (∀ v ∈ (forgotPassword env db now email).1.users, v._id = user._id →
      v.passwordResetToken = none ∧ v.passwordResetExpires = none) := by
  have hsave1 := save_of_find? _ db user
    (fun stored =>
      { stored with
        passwordResetToken := some (env.hash env.resetCode)
        passwordResetExpires := some (now + env.resetTtl) }) hu
  have hfind1 : User.findOneByEmail
      (db.updateUser user._id
        (fun stored =>
          { stored with
            passwordResetToken := some (env.hash env.resetCode)
            passwordResetExpires := some (now + env.resetTtl) })) email =
      some { user with
        passwordResetToken := some (env.hash env.resetCode)
        passwordResetExpires := some (now + env.resetTtl) } :=
    find?_updateUser (fun u : User => u.email == email)
      (fun stored =>
        { stored with
          passwordResetToken := some (env.hash env.resetCode)
          passwordResetExpires := some (now + env.resetTtl) })
      user._id (fun _ => rfl) db.users user hu rfl
  have hsave2 := save_of_find? _ _ _
    (fun stored => { stored with passwordResetToken := none, passwordResetExpires := none })
    hfind1
  have hres : forgotPassword env db now email =
      (Db.updateUser
        (db.updateUser user._id
          (fun stored =>
            { stored with
              passwordResetToken := some (env.hash env.resetCode)
              passwordResetExpires := some (now + env.resetTtl) }))
        user._id
        (fun stored => { stored with passwordResetToken := none, passwordResetExpires := none }),
        .next (some ⟨"There was an error sending the email", some 500⟩)) := by
    simp only [forgotPassword, hu, User.createPasswordResetToken]
    rw [hsave1]
    simp only [hmail]
    rw [hsave2]
    rfl
  rw [hres]
  refine ⟨rfl, ?_, ?_⟩
  · exact find?_updateUser (fun u : User => u.email == email)
      (fun stored => { stored with passwordResetToken := none, passwordResetExpires := none })
      user._id (fun _ => rfl) _
      { user with
        passwordResetToken := some (env.hash env.resetCode)
        passwordResetExpires := some (now + env.resetTtl) }
      hfind1 rfl
  · intro v hv hid
    simp only [Db.updateUser, List.mem_map] at hv
    obtain ⟨a, -, ha⟩ := hv
    by_cases hc : (a._id == user._id) = true
    · rw [if_pos hc] at ha
      rw [← ha]
      exact ⟨rfl, rfl⟩
    · rw [if_neg hc] at ha
      rw [ha] at hc
      exact absurd (by simpa using hid) hc

/-- Witness of `forgotPassword_mail_failure`: the mail transport rejects. -/
theorem forgotPassword_mail_failure_witness :
    User.findOneByEmail pendingDb "c@x.com" = some pendingUser ∧
    (forgotPassword (toyEnv false) pendingDb 900 "c@x.com").2 =
      .next (some ⟨"There was an error sending the email", some 500⟩) ∧
    User.findOneByEmail (forgotPassword (toyEnv false) pendingDb 900 "c@x.com").1 "c@x.com" =
      some { pendingUser with passwordResetToken := none, passwordResetExpires := none } ∧
    (∀ v ∈ (forgotPassword (toyEnv false) pendingDb 900 "c@x.com").1.users,
      v._id = pendingUser._id →
        v.passwordResetToken = none ∧ v.passwordResetExpires = none) :=
  ⟨by decide,
    forgotPassword_mail_failure (toyEnv false) pendingDb 900 "c@x.com" pendingUser
      (by decide) rfl⟩

/-! ## File access: claim C10 -/

/-- C10, evaluated on the code: the courses `cA` and `cB` are backed by the
files `fileA` and `fileB`; `giveAccess` asks for the same grant for both, on
the file id written in the handler, and for an unknown course id it ends in
the ReferenceError of `next`, not in the 404 answer. -/
theorem giveAccess_ignores_course_file :
    (Course.findById ownerDb "cA").map (fun c => c.fileId) = some "fileA" ∧
    (Course.findById ownerDb "cB").map (fun c => c.fileId) = some "fileB" ∧
    giveAccess grantAll ownerDb ⟨ownerUser, []⟩ "cA" =
      ([⟨"1TTcG6LUynoBgZzLYDPbQM4e5cfo6sNek", "reader", "user", "b@x.com"⟩],
        .json 200 "perm1") ∧
    giveAccess grantAll ownerDb ⟨ownerUser, []⟩ "cB" =
      ([⟨"1TTcG6LUynoBgZzLYDPbQM4e5cfo6sNek", "reader", "user", "b@x.com"⟩],
        .json 200 "perm1") ∧
    Course.findById ownerDb "cZ" = none ∧
    giveAccess grantAll ownerDb ⟨ownerUser, []⟩ "cZ" =
      ([], .threw (.referenceError "next")) := by
  decide

end CutOrDie
